import Mathlib

/-!
Verification of the prediction-and-decision engine of the diabetes
prediction demo (`demo_predicao_diabetes.py`).

The engine is embedded shallowly: probabilities and thresholds are exact
rationals (the source's decimal literals), the external model and scaler
are parameters (pure functions supplied by the caller), and the fallible
construction of the feature frame is an `Except`.
-/

namespace Diabetes

/-- Structural errors of the scoring call.  The only structural failure
reachable in the embedded fragment is the feature-vector/column-count
mismatch raised while building the one-row data frame. -/
inductive PredError where
  | SchemaError : PredError
deriving DecidableEq, Repr

/-- The immutable result record (`resultado` dict) assembled by
`predizer_diabetes`. -/
structure Resultado where
  predicao : String
  probabilidade : ℚ
  nivel_risco : String
  descricao_risco : String
  threshold_usado : ℚ
  contexto : String
  confianca : String
deriving DecidableEq, Repr

/-- The context → threshold table `thresholds_contexto` of
`predizer_diabetes`; `none` models a key that is absent from the dict. -/
def thresholds_contexto (contexto : String) : Option ℚ :=
  if contexto = "triagem" then some (35/100)
  else if contexto = "consulta_medica" then some (45/100)
  else if contexto = "preventiva" then some (60/100)
  else none

/-- Default of the `threshold` parameter of `predizer_diabetes`. -/
def threshold_default : ℚ := 45/100

/-- Default of the `contexto` parameter of `predizer_diabetes`. -/
def contexto_default : String := "consulta_medica"

/-- `interpretar_risco`: maps a probability to the pair
(nível de risco, descrição). -/
def interpretar_risco (probabilidade : ℚ) : String × String :=
  if probabilidade ≥ 8/10 then
    ("🔴 MUITO ALTO", "Forte indicação de diabetes - Investigação urgente")
  else if probabilidade ≥ 6/10 then
    ("🟠 ALTO", "Risco elevado - Exames complementares recomendados")
  else if probabilidade ≥ 4/10 then
    ("🟡 MODERADO", "Risco moderado - Monitoramento regular")
  else if probabilidade ≥ 2/10 then
    ("🟢 BAIXO", "Risco baixo - Prevenção e estilo de vida saudável")
  else
    ("💚 MUITO BAIXO", "Risco muito baixo - Manter hábitos saudáveis")

/-- `predizer_diabetes`: the scoring call.  `modelo` abstracts
`lambda x: modelo.predict_proba(x)[0][1]` and `scaler` abstracts
`scaler.transform` (external pure collaborators).  The threshold is first
overridden by the context table when the context is a known key; building
the one-row frame `pd.DataFrame([dados_paciente], columns=feature_columns)`
fails when the vector length differs from the column count. -/
def predizer_diabetes (dados_paciente : List ℚ) (modelo : List ℚ → ℚ)
    (scaler : List ℚ → List ℚ) (feature_columns : List String)
    (threshold : ℚ) (contexto : String) : Except PredError Resultado :=
  let threshold := (thresholds_contexto contexto).getD threshold
  if dados_paciente.length = feature_columns.length then
    let dados_normalizados := scaler dados_paciente
    let probabilidade := modelo dados_normalizados
    let predicao : Nat := if probabilidade ≥ threshold then 1 else 0
    let interp := interpretar_risco probabilidade
    Except.ok ⟨if predicao = 1 then "DIABETES" else "NÃO-DIABETES",
      probabilidade, interp.1, interp.2, threshold, contexto,
      if |probabilidade - 1/2| > 3/10 then "Alta" else "Moderada"⟩
  else
    Except.error PredError.SchemaError

/-- On a well-shaped vector the call succeeds and the fields of the
record are exactly the computed values. -/
theorem predizer_diabetes_ok (dados : List ℚ) (modelo : List ℚ → ℚ)
    (scaler : List ℚ → List ℚ) (cols : List String) (t : ℚ) (ctx : String)
    (h : dados.length = cols.length) :
    predizer_diabetes dados modelo scaler cols t ctx =
      Except.ok ⟨if modelo (scaler dados) ≥ (thresholds_contexto ctx).getD t
          then "DIABETES" else "NÃO-DIABETES",
        modelo (scaler dados),
        (interpretar_risco (modelo (scaler dados))).1,
        (interpretar_risco (modelo (scaler dados))).2,
        (thresholds_contexto ctx).getD t, ctx,
        if |modelo (scaler dados) - 1/2| > 3/10 then "Alta" else "Moderada"⟩ := by
  unfold predizer_diabetes
  rw [if_pos h]
  by_cases hp : modelo (scaler dados) ≥ (thresholds_contexto ctx).getD t
  · simp [hp]
  · simp [hp]

/-- The record label is positive exactly when the probability reaches the
resolved threshold. -/
theorem predicao_pos_iff (dados : List ℚ) (modelo : List ℚ → ℚ)
    (scaler : List ℚ → List ℚ) (cols : List String) (t : ℚ) (ctx : String)
    (r : Resultado) (h : dados.length = cols.length)
    (hr : predizer_diabetes dados modelo scaler cols t ctx = Except.ok r) :
    r.predicao = "DIABETES" ↔ modelo (scaler dados) ≥ (thresholds_contexto ctx).getD t := by
  have e := predizer_diabetes_ok dados modelo scaler cols t ctx h
  rw [hr] at e
  obtain rfl := (Except.ok.injEq _ _).mp e
  by_cases hp : modelo (scaler dados) ≥ (thresholds_contexto ctx).getD t
  · simp [hp]
  · simp [hp]

/-- The feature-name list of the system (canonical column order of the
8 features, as documented for `dados_paciente`). -/
def feature_columns : List String :=
  ["Pregnancies", "Glucose", "BloodPressure", "SkinThickness",
   "Insulin", "BMI", "DiabetesPedigreeFunction", "Age"]

/-- Claim C1: for every scoring call, a recognized context tag (triagem,
consulta_medica, preventiva) forces the threshold 0.35, 0.45, 0.60
respectively, overriding the supplied threshold argument; any other
context string leaves the supplied threshold (whose default is 0.45) in
force. -/
theorem C1_threshold_resolution (dados : List ℚ) (modelo : List ℚ → ℚ)
    (scaler : List ℚ → List ℚ) (cols : List String) (t : ℚ) (ctx : String)
    (h : dados.length = cols.length) :
    ∃ r : Resultado,
      predizer_diabetes dados modelo scaler cols t ctx = Except.ok r ∧
      (ctx = "triagem" → r.threshold_usado = 35/100) ∧
      (ctx = "consulta_medica" → r.threshold_usado = 45/100) ∧
      (ctx = "preventiva" → r.threshold_usado = 60/100) ∧
      (ctx ≠ "triagem" → ctx ≠ "consulta_medica" → ctx ≠ "preventiva" →
        r.threshold_usado = t) ∧
      threshold_default = 45/100 := by
  refine ⟨_, predizer_diabetes_ok dados modelo scaler cols t ctx h,
    ?_, ?_, ?_, ?_, rfl⟩ <;> intros <;> simp_all [thresholds_contexto]

/-- Witness for C1 at a concrete call: the context triagem overrides an
explicit threshold of 0.99. -/
theorem C1_threshold_resolution_witness :
    (predizer_diabetes [2, 110, 75, 25, 100, 57/2, 2/5, 35] (fun _ => 1/2) id
        feature_columns (99/100) "triagem").toOption.map Resultado.threshold_usado =
      some (35/100) := by
  obtain ⟨r, hr, htri, -, -, -, -⟩ :=
    C1_threshold_resolution [2, 110, 75, 25, 100, 57/2, 2/5, 35] (fun _ => 1/2) id
      feature_columns (99/100) "triagem" (by decide)
  rw [hr]
  simp [Except.toOption, htri rfl]

/-- Claim C2: the result label is positive (DIABETES) iff the probability
is at least the resolved threshold; exact equality yields the positive
label (inclusive boundary). -/
theorem C2_labeling (dados : List ℚ) (modelo : List ℚ → ℚ)
    (scaler : List ℚ → List ℚ) (cols : List String) (t : ℚ) (ctx : String)
    (h : dados.length = cols.length) :
    ∃ r : Resultado,
      predizer_diabetes dados modelo scaler cols t ctx = Except.ok r ∧
      (r.predicao = "DIABETES" ↔ r.probabilidade ≥ r.threshold_usado) ∧
      (r.probabilidade = r.threshold_usado → r.predicao = "DIABETES") ∧
      (¬ r.probabilidade ≥ r.threshold_usado → r.predicao = "NÃO-DIABETES") := by
  refine ⟨_, predizer_diabetes_ok dados modelo scaler cols t ctx h, ?_, ?_, ?_⟩ <;>
    by_cases hp : modelo (scaler dados) ≥ (thresholds_contexto ctx).getD t <;>
    simp_all

/-- Witness for C2 at a concrete call where the probability exactly equals
the threshold: the label is positive. -/
theorem C2_labeling_witness :
    (predizer_diabetes [2, 110, 75, 25, 100, 57/2, 2/5, 35] (fun _ => 45/100) id
        feature_columns (45/100) "consulta_medica").toOption.map Resultado.predicao =
      some "DIABETES" := by
  obtain ⟨r, hr, -, heq, -⟩ :=
    C2_labeling [2, 110, 75, 25, 100, 57/2, 2/5, 35] (fun _ => 45/100) id
      feature_columns (45/100) "consulta_medica" (by decide)
  have e := predizer_diabetes_ok [2, 110, 75, 25, 100, 57/2, 2/5, 35] (fun _ => 45/100)
    id feature_columns (45/100) "consulta_medica" (by decide)
  rw [hr] at e
  obtain rfl := (Except.ok.injEq _ _).mp e
  have hpred := heq (by simp [thresholds_contexto])
  rw [hr]
  simpa [Except.toOption, thresholds_contexto] using hpred

/-- Claim C3: `interpretar_risco` realizes the five-tier step function with
lower-inclusive boundaries, each tier carrying its fixed narrative. -/
theorem C3_risk_tiers (p : ℚ) :
    (interpretar_risco p =
        ("🔴 MUITO ALTO", "Forte indicação de diabetes - Investigação urgente") ↔
      8/10 ≤ p) ∧
    (interpretar_risco p =
        ("🟠 ALTO", "Risco elevado - Exames complementares recomendados") ↔
      6/10 ≤ p ∧ p < 8/10) ∧
    (interpretar_risco p =
        ("🟡 MODERADO", "Risco moderado - Monitoramento regular") ↔
      4/10 ≤ p ∧ p < 6/10) ∧
    (interpretar_risco p =
        ("🟢 BAIXO", "Risco baixo - Prevenção e estilo de vida saudável") ↔
      2/10 ≤ p ∧ p < 4/10) ∧
    (interpretar_risco p =
        ("💚 MUITO BAIXO", "Risco muito baixo - Manter hábitos saudáveis") ↔
      p < 2/10) := by
  unfold interpretar_risco
  split_ifs with h1 h2 h3 h4 <;>
    refine ⟨?_, ?_, ?_, ?_, ?_⟩ <;> simp_all <;>
    first
      | linarith
      | (intros; linarith)

/-- Claim C4: a feature vector whose length differs from the feature-name
list makes the scoring call fail with the schema error, producing no
result record. -/
theorem C4_schema_violation (dados : List ℚ) (modelo : List ℚ → ℚ)
    (scaler : List ℚ → List ℚ) (cols : List String) (t : ℚ) (ctx : String)
    (h : dados.length ≠ cols.length) :
    predizer_diabetes dados modelo scaler cols t ctx =
      Except.error PredError.SchemaError := by
  unfold predizer_diabetes
  rw [if_neg h]

/-- Witness for C4: a vector of length 7 against the 8 feature names. -/
theorem C4_schema_violation_witness :
    predizer_diabetes [2, 110, 75, 25, 100, 57/2, 2/5] (fun _ => 1/2) id
        feature_columns (45/100) "consulta_medica" =
      Except.error PredError.SchemaError :=
  C4_schema_violation [2, 110, 75, 25, 100, 57/2, 2/5] (fun _ => 1/2) id
    feature_columns (45/100) "consulta_medica" (by decide)

/-- Counterexample to claim C5 as stated: two calls on the same vector,
model, scaler and names under contexts triagem and preventiva yield
records that differ in the `contexto` field, which is neither the label
nor the threshold. -/
theorem C5_counterexample :
    (predizer_diabetes [2, 125, 80, 28, 120, 29, 1/2, 40] (fun _ => 1/2) id
        feature_columns (45/100) "triagem").toOption.map Resultado.contexto ≠
      (predizer_diabetes [2, 125, 80, 28, 120, 29, 1/2, 40] (fun _ => 1/2) id
        feature_columns (45/100) "preventiva").toOption.map Resultado.contexto := by
  rw [predizer_diabetes_ok _ _ _ _ _ _ (by decide),
    predizer_diabetes_ok _ _ _ _ _ _ (by decide)]
  simp [Except.toOption]

/-- Claim C5 (amended): two calls with the same vector, model, scaler and
feature names but different contexts agree on the probability, risk tier,
risk narrative and confidence fields; only the label, the threshold used
and the `contexto` echo of the input may differ. -/
theorem C5_context_noninterference (dados : List ℚ) (modelo : List ℚ → ℚ)
    (scaler : List ℚ → List ℚ) (cols : List String) (t : ℚ) (ctx1 ctx2 : String)
    (h : dados.length = cols.length) :
    ∃ r1 r2 : Resultado,
      predizer_diabetes dados modelo scaler cols t ctx1 = Except.ok r1 ∧
      predizer_diabetes dados modelo scaler cols t ctx2 = Except.ok r2 ∧
      r1.probabilidade = r2.probabilidade ∧
      r1.nivel_risco = r2.nivel_risco ∧
      r1.descricao_risco = r2.descricao_risco ∧
      r1.confianca = r2.confianca ∧
      r1.contexto = ctx1 ∧ r2.contexto = ctx2 :=
  ⟨_, _, predizer_diabetes_ok dados modelo scaler cols t ctx1 h,
    predizer_diabetes_ok dados modelo scaler cols t ctx2 h,
    rfl, rfl, rfl, rfl, rfl, rfl⟩

/-- Witness for the amended C5 at a concrete call pair. -/
theorem C5_context_noninterference_witness :
    ∃ r1 r2 : Resultado,
      predizer_diabetes [2, 125, 80, 28, 120, 29, 1/2, 40] (fun _ => 1/2) id
          feature_columns (45/100) "triagem" = Except.ok r1 ∧
      predizer_diabetes [2, 125, 80, 28, 120, 29, 1/2, 40] (fun _ => 1/2) id
          feature_columns (45/100) "preventiva" = Except.ok r2 ∧
      r1.probabilidade = r2.probabilidade ∧
      r1.nivel_risco = r2.nivel_risco ∧
      r1.descricao_risco = r2.descricao_risco ∧
      r1.confianca = r2.confianca ∧
      r1.contexto = "triagem" ∧ r2.contexto = "preventiva" :=
  C5_context_noninterference [2, 125, 80, 28, 120, 29, 1/2, 40] (fun _ => 1/2) id
    feature_columns (45/100) "triagem" "preventiva" (by decide)

/-- Claim C6: the confidence field is Alta iff the probability is farther
than 0.3 from 0.5, Moderada otherwise; exact distance 0.3 yields
Moderada, for every context and threshold. -/
theorem C6_confidence (dados : List ℚ) (modelo : List ℚ → ℚ)
    (scaler : List ℚ → List ℚ) (cols : List String) (t : ℚ) (ctx : String)
    (h : dados.length = cols.length) :
    ∃ r : Resultado,
      predizer_diabetes dados modelo scaler cols t ctx = Except.ok r ∧
      (r.confianca = "Alta" ↔ |r.probabilidade - 1/2| > 3/10) ∧
      (|r.probabilidade - 1/2| = 3/10 → r.confianca = "Moderada") ∧
      (r.confianca = "Alta" ∨ r.confianca = "Moderada") := by
  refine ⟨_, predizer_diabetes_ok dados modelo scaler cols t ctx h, ?_, ?_, ?_⟩ <;>
    by_cases hc : |modelo (scaler dados) - 1/2| > 3/10 <;>
    simp_all

/-- Witness for C6 at a concrete call whose probability is exactly 0.2
(distance exactly 0.3 from the midpoint): confidence is Moderada. -/
theorem C6_confidence_witness :
    (predizer_diabetes [0, 85, 65, 20, 80, 22, 1/5, 25] (fun _ => 2/10) id
        feature_columns (45/100) "consulta_medica").toOption.map Resultado.confianca =
      some "Moderada" := by
  obtain ⟨r, hr, -, hb, -⟩ :=
    C6_confidence [0, 85, 65, 20, 80, 22, 1/5, 25] (fun _ => 2/10) id
      feature_columns (45/100) "consulta_medica" (by decide)
  have e := predizer_diabetes_ok [0, 85, 65, 20, 80, 22, 1/5, 25] (fun _ => 2/10) id
    feature_columns (45/100) "consulta_medica" (by decide)
  rw [hr] at e
  obtain rfl := (Except.ok.injEq _ _).mp e
  have hm := hb (by norm_num)
  rw [hr]
  simpa [Except.toOption] using hm

/-- Claim C7: the scoring call is deterministic: two invocations on the
same vector, model, scaler, names, threshold and context produce the same
result record in every field. -/
theorem C7_determinism (dados : List ℚ) (modelo : List ℚ → ℚ)
    (scaler : List ℚ → List ℚ) (cols : List String) (t : ℚ) (ctx : String)
    (r1 r2 : Resultado)
    (h1 : predizer_diabetes dados modelo scaler cols t ctx = Except.ok r1)
    (h2 : predizer_diabetes dados modelo scaler cols t ctx = Except.ok r2) :
    r1 = r2 := by
  rw [h1] at h2
  exact (Except.ok.injEq _ _).mp h2

/-- Witness for C7 at a concrete call invoked twice. -/
theorem C7_determinism_witness :
    (predizer_diabetes [0, 85, 65, 20, 80, 22, 1/5, 25] (fun _ => 1/2) id
        feature_columns (45/100) "consulta_medica").toOption.map Resultado.probabilidade =
      some (1/2) := by
  have e := predizer_diabetes_ok [0, 85, 65, 20, 80, 22, 1/5, 25] (fun _ => 1/2) id
    feature_columns (45/100) "consulta_medica" (by decide)
  obtain ⟨r, hr⟩ : ∃ r, predizer_diabetes [0, 85, 65, 20, 80, 22, 1/5, 25]
      (fun _ => 1/2) id feature_columns (45/100) "consulta_medica" = Except.ok r :=
    ⟨_, e⟩
  have hdet := C7_determinism [0, 85, 65, 20, 80, 22, 1/5, 25] (fun _ => 1/2) id
    feature_columns (45/100) "consulta_medica" r _ hr e
  rw [hr, hdet]
  rfl

/-- Claim C8: labels are antitone in the threshold: with the same vector
and model, a positive label at a larger threshold is positive at any
smaller one; consequently positives under preventiva (0.60) are positive
under consulta_medica (0.45), which are positive under triagem (0.35). -/
theorem C8_label_monotone (dados : List ℚ) (modelo : List ℚ → ℚ)
    (scaler : List ℚ → List ℚ) (cols : List String)
    (h : dados.length = cols.length) :
    (∀ (t1 t2 : ℚ) (ctx : String) (r1 r2 : Resultado),
      thresholds_contexto ctx = none → t1 ≤ t2 →
      predizer_diabetes dados modelo scaler cols t1 ctx = Except.ok r1 →
      predizer_diabetes dados modelo scaler cols t2 ctx = Except.ok r2 →
      r2.predicao = "DIABETES" → r1.predicao = "DIABETES") ∧
    (∀ (t : ℚ) (rt rc rp : Resultado),
      predizer_diabetes dados modelo scaler cols t "triagem" = Except.ok rt →
      predizer_diabetes dados modelo scaler cols t "consulta_medica" = Except.ok rc →
      predizer_diabetes dados modelo scaler cols t "preventiva" = Except.ok rp →
      (rp.predicao = "DIABETES" → rc.predicao = "DIABETES") ∧
      (rc.predicao = "DIABETES" → rt.predicao = "DIABETES")) := by
  constructor
  · intro t1 t2 ctx r1 r2 hctx hle hr1 hr2 hpos
    rw [predicao_pos_iff dados modelo scaler cols t2 ctx r2 h hr2, hctx,
      Option.getD_none] at hpos
    rw [predicao_pos_iff dados modelo scaler cols t1 ctx r1 h hr1, hctx,
      Option.getD_none]
    exact le_trans hle hpos
  · intro t rt rc rp hrt hrc hrp
    constructor
    · intro hp
      rw [predicao_pos_iff dados modelo scaler cols t "preventiva" rp h hrp] at hp
      rw [predicao_pos_iff dados modelo scaler cols t "consulta_medica" rc h hrc]
      simp [thresholds_contexto] at hp ⊢
      linarith
    · intro hp
      rw [predicao_pos_iff dados modelo scaler cols t "consulta_medica" rc h hrc] at hp
      rw [predicao_pos_iff dados modelo scaler cols t "triagem" rt h hrt]
      simp [thresholds_contexto] at hp ⊢
      linarith

/-- Witness for C8: a probability of 0.5 is positive under
consulta_medica, hence positive under triagem. -/
theorem C8_label_monotone_witness :
    (predizer_diabetes [4, 160, 85, 30, 150, 35, 4/5, 45] (fun _ => 1/2) id
        feature_columns (45/100) "triagem").toOption.map Resultado.predicao =
      some "DIABETES" := by
  have e_tri := predizer_diabetes_ok [4, 160, 85, 30, 150, 35, 4/5, 45] (fun _ => 1/2) id
    feature_columns (45/100) "triagem" (by decide)
  have e_con := predizer_diabetes_ok [4, 160, 85, 30, 150, 35, 4/5, 45] (fun _ => 1/2) id
    feature_columns (45/100) "consulta_medica" (by decide)
  have e_pre := predizer_diabetes_ok [4, 160, 85, 30, 150, 35, 4/5, 45] (fun _ => 1/2) id
    feature_columns (45/100) "preventiva" (by decide)
  obtain ⟨-, hchain⟩ := C8_label_monotone [4, 160, 85, 30, 150, 35, 4/5, 45]
    (fun _ => 1/2) id feature_columns (by decide)
  obtain ⟨-, hct⟩ := hchain (45/100) _ _ _ e_tri e_con e_pre
  have hpos := hct ((predicao_pos_iff [4, 160, 85, 30, 150, 35, 4/5, 45] (fun _ => 1/2)
    id feature_columns (45/100) "consulta_medica" _ (by decide) e_con).mpr
      (by simp [thresholds_contexto]; norm_num))
  rw [e_tri]
  simpa [Except.toOption] using hpos

/-- A probability farther than 0.3 from the midpoint lands in the extreme
risk tiers. -/
theorem nivel_of_alta (p : ℚ) (hc : |p - 1/2| > 3/10) :
    (interpretar_risco p).1 = "🔴 MUITO ALTO" ∨
    (interpretar_risco p).1 = "💚 MUITO BAIXO" := by
  rcases lt_abs.mp hc with h8 | h2
  · left
    have hp : (8:ℚ)/10 ≤ p := by linarith
    simp [interpretar_risco, ge_iff_le, hp]
  · right
    have n1 : ¬ (8:ℚ)/10 ≤ p := by push_neg; linarith
    have n2 : ¬ (6:ℚ)/10 ≤ p := by push_neg; linarith
    have n3 : ¬ (4:ℚ)/10 ≤ p := by push_neg; linarith
    have n4 : ¬ (2:ℚ)/10 ≤ p := by push_neg; linarith
    simp [interpretar_risco, ge_iff_le, n1, n2, n3, n4]

/-- Claim C9: cross-field invariant of every result record: confidence
Alta forces the risk tier to an extreme (MUITO ALTO or MUITO BAIXO); a
record in tier MODERADO, BAIXO or ALTO carries confidence Moderada. -/
theorem C9_confidence_tier (dados : List ℚ) (modelo : List ℚ → ℚ)
    (scaler : List ℚ → List ℚ) (cols : List String) (t : ℚ) (ctx : String)
    (h : dados.length = cols.length) :
    ∃ r : Resultado,
      predizer_diabetes dados modelo scaler cols t ctx = Except.ok r ∧
      (r.confianca = "Alta" →
        r.nivel_risco = "🔴 MUITO ALTO" ∨ r.nivel_risco = "💚 MUITO BAIXO") ∧
      ((r.nivel_risco = "🟡 MODERADO" ∨ r.nivel_risco = "🟢 BAIXO" ∨
        r.nivel_risco = "🟠 ALTO") → r.confianca = "Moderada") := by
  refine ⟨_, predizer_diabetes_ok dados modelo scaler cols t ctx h, ?_, ?_⟩
  · intro hA
    by_cases hc : |modelo (scaler dados) - 1/2| > 3/10
    · exact nivel_of_alta _ hc
    · exact absurd ((if_neg hc).symm.trans hA) (by decide)
  · intro hd
    by_cases hc : |modelo (scaler dados) - 1/2| > 3/10
    · exfalso
      rcases nivel_of_alta _ hc with hh | hh <;>
        rcases hd with hd | hd | hd <;> simp_all
    · exact if_neg hc

/-- Witness for C9 at a concrete call with probability 0.9: confidence is
Alta and the tier is MUITO ALTO. -/
theorem C9_confidence_tier_witness :
    (predizer_diabetes [4, 160, 85, 30, 150, 35, 4/5, 45] (fun _ => 9/10) id
        feature_columns (45/100) "consulta_medica").toOption.map Resultado.nivel_risco =
      some "🔴 MUITO ALTO" := by
  obtain ⟨r, hr, hA, -⟩ :=
    C9_confidence_tier [4, 160, 85, 30, 150, 35, 4/5, 45] (fun _ => 9/10) id
      feature_columns (45/100) "consulta_medica" (by decide)
  have e := predizer_diabetes_ok [4, 160, 85, 30, 150, 35, 4/5, 45] (fun _ => 9/10) id
    feature_columns (45/100) "consulta_medica" (by decide)
  rw [hr] at e
  obtain rfl := (Except.ok.injEq _ _).mp e
  have habs : |(9:ℚ)/10 - 1/2| > 3/10 := by
    rw [abs_of_nonneg (by norm_num : (0:ℚ) ≤ 9/10 - 1/2)]
    norm_num
  have hex := hA (if_pos habs)
  have hni : (interpretar_risco ((fun _ => (9:ℚ)/10)
      (id [4, 160, 85, 30, 150, 35, 4/5, 45]))).1 = "🔴 MUITO ALTO" := by
    norm_num [interpretar_risco, ge_iff_le]
  rcases hex with hh | hh
  · rw [hr]
    simpa [Except.toOption] using hh
  · exact absurd (hni.symm.trans hh) (by decide)

/-- Claim C10: `interpretar_risco` is total on all rational inputs, also
outside [0,1]: every input lands in one of the five tiers, any p ≥ 0.8
(even above 1) is MUITO ALTO and any p < 0.2 (even negative) is MUITO
BAIXO; no input is rejected. -/
theorem C10_totality (p : ℚ) :
    ((interpretar_risco p).1 = "🔴 MUITO ALTO" ∨ (interpretar_risco p).1 = "🟠 ALTO" ∨
      (interpretar_risco p).1 = "🟡 MODERADO" ∨ (interpretar_risco p).1 = "🟢 BAIXO" ∨
      (interpretar_risco p).1 = "💚 MUITO BAIXO") ∧
    (8/10 ≤ p → (interpretar_risco p).1 = "🔴 MUITO ALTO") ∧
    (p < 2/10 → (interpretar_risco p).1 = "💚 MUITO BAIXO") := by
  refine ⟨?_, ?_, ?_⟩
  · unfold interpretar_risco
    split_ifs <;> simp
  · intro hp
    simp [interpretar_risco, ge_iff_le, hp]
  · intro hp
    have n1 : ¬ (8:ℚ)/10 ≤ p := by push_neg; linarith
    have n2 : ¬ (6:ℚ)/10 ≤ p := by push_neg; linarith
    have n3 : ¬ (4:ℚ)/10 ≤ p := by push_neg; linarith
    have n4 : ¬ (2:ℚ)/10 ≤ p := by push_neg; linarith
    simp [interpretar_risco, ge_iff_le, n1, n2, n3, n4]

/-- Witness for C10 at out-of-range inputs 1.5 and -0.5. -/
theorem C10_totality_witness :
    (interpretar_risco (3/2)).1 = "🔴 MUITO ALTO" ∧
    (interpretar_risco (-1/2)).1 = "💚 MUITO BAIXO" :=
  ⟨(C10_totality (3/2)).2.1 (by norm_num), (C10_totality (-1/2)).2.2 (by norm_num)⟩

end Diabetes
